import Mathlib

/-!
Verification of the Alpha Laundry quota/request core.

The embedding follows the server source:
* data model: `src/backend/database/schema.sql` (tables `students`,
  `laundry_requests`);
* student controller `submitRequest` and admin controller
  `updateRequestStatus`: `src/unnamed/part_010`;
* route-level validation: `src/unnamed/part_007` (student routes,
  `body('num_clothes').isInt(\x7b min: 1 \x7d)`) and
  `src/server/src/routes/adminRoutes.ts`
  (`body('status').isIn(['processing', 'completed'])`).

Timestamps are abstracted to `Nat` (the SQL layer fills
`submission_date` with `CURRENT_TIMESTAMP`; we pass the clock value
`now` explicitly). Row ids are `Nat`, mirroring the `SERIAL` columns.
-/

namespace AlphaLaundry

/-- Request status, from the schema CHECK constraint
`status IN ('submitted', 'processing', 'completed', 'cancelled')`. -/
inductive Status where
  | submitted
  | processing
  | completed
  | cancelled
deriving DecidableEq

/-- A row of the `students` table. The schema stores `student_id`,
`name` and `remaining_quota` (default 30). The field `quota_limit` is
ghost specification state taken from the spec data model (the spec's
`quotaLimit`, default 30): no operation of the code reads or writes it;
it exists only so that the ledger-consistency property can be stated. -/
structure Student where
  student_id : String
  name : String
  quota_limit : Int
  remaining_quota : Int
deriving DecidableEq

/-- A row of the `laundry_requests` table: `id SERIAL`, `student_id`,
`num_clothes`, `status` (default `'submitted'`), `submission_date`
(default `CURRENT_TIMESTAMP`), `completed_date` (nullable). -/
structure LaundryRequest where
  id : Nat
  student_id : String
  num_clothes : Int
  status : Status
  submission_date : Nat
  completed_date : Option Nat
deriving DecidableEq

/-- The database state: the two tables the core touches, plus the next
value of the `laundry_requests.id` sequence. -/
structure DBState where
  students : List Student
  requests : List LaundryRequest
  nextId : Nat
deriving DecidableEq

/-- `class AppError extends Error` with a `statusCode`, as used at every
`throw new AppError(message, code)` site of the controllers (the class
itself lives in `../middleware/errorHandler`, imported by the
controllers). -/
structure AppError where
  message : String
  statusCode : Nat
deriving DecidableEq

/-- Errors visible to a caller of an endpoint: an `AppError` thrown by a
controller, or an express-validator rejection. Modelled from the spec:
the `validateRequest` middleware (imported from
`../middleware/validateRequest`, implementation absent from src/)
rejects the request with the failing validator's `withMessage` text
before the controller runs. -/
inductive ApiError where
  | app (e : AppError)
  | validation (message : String)
deriving DecidableEq

/-- `SELECT ... FROM students WHERE student_id = $1` (first matching
row, as the controllers use `rows[0]`). -/
def findStudent (st : DBState) (sid : String) : Option Student :=
  st.students.find? (fun s => s.student_id == sid)

/-- `SELECT ... FROM laundry_requests WHERE id = $1` (first matching
row). -/
def findRequest (reqs : List LaundryRequest) (rid : Nat) : Option LaundryRequest :=
  reqs.find? (fun r => r.id == rid)

/-- The row update performed by
`UPDATE laundry_requests SET status = $1 WHERE id = $2`. -/
def setStatus (rid : Nat) (s : Status) (r : LaundryRequest) : LaundryRequest :=
  if r.id == rid then { r with status := s } else r

/-- The row update performed by `UPDATE students SET remaining_quota =
remaining_quota - $1 WHERE student_id = $2`. -/
def decQuota (sid : String) (n : Int) (s : Student) : Student :=
  if s.student_id == sid then { s with remaining_quota := s.remaining_quota - n } else s

/-- The row inserted by `INSERT INTO laundry_requests (student_id,
num_clothes) VALUES ($1, $2)`: the schema defaults fill
`status = 'submitted'`, `submission_date = CURRENT_TIMESTAMP`,
`completed_date = NULL`, and `id` comes from the sequence. -/
def newRequest (st : DBState) (now : Nat) (sid : String) (n : Int) : LaundryRequest :=
  { id := st.nextId
    student_id := sid
    num_clothes := n
    status := Status.submitted
    submission_date := now
    completed_date := none }

/-- Admin controller `updateRequestStatus` (src/unnamed/part_010,
lines 43-72): run the `UPDATE ... SET status ... RETURNING *`; if no row
was updated, throw `AppError('Request not found', 404)`; otherwise
respond with the updated row. The returned state is the database after
the call; on the 404 path no row matched, so the database is unchanged. -/
def updateRequestStatus (st : DBState) (request_id : Nat) (status : Status) :
    DBState × Except ApiError LaundryRequest :=
  match findRequest (st.requests.map (setStatus request_id status)) request_id with
  | none => (st, Except.error (ApiError.app ⟨"Request not found", 404⟩))
  | some r =>
    ({ st with requests := st.requests.map (setStatus request_id status) }, Except.ok r)

/-- `body('status').isIn(['processing', 'completed'])` on the admin
`PATCH /update-status` route. -/
def adminStatusAllowed (s : Status) : Bool :=
  s == Status.processing || s == Status.completed

/-- The admin `PATCH /update-status` endpoint: the express-validator
chain of `adminRoutes.ts` followed by the controller. -/
def updateStatusEndpoint (st : DBState) (request_id : Nat) (status : Status) :
    DBState × Except ApiError LaundryRequest :=
  if adminStatusAllowed status then updateRequestStatus st request_id status
  else (st, Except.error (ApiError.validation "Status must be either processing or completed"))

/-- Fault injection point for the two writes inside `submitRequest`'s
transaction: no fault, the `INSERT` fails, or the quota `UPDATE` fails. -/
inductive Fault where
  | ok
  | onInsert
  | onUpdate
deriving DecidableEq

/-- Student controller `submitRequest` (src/unnamed/part_010, lines
158-218), with fault injection on the two transactional writes. The
controller first reads the student and checks
`remaining_quota < num_clothes` outside any transaction, then runs
`BEGIN`; `INSERT INTO laundry_requests ...`; `UPDATE students SET
remaining_quota = remaining_quota - $1 ...`; `COMMIT`, with `ROLLBACK`
on any error inside the transaction. A rollback discards the staged
insert, so both fault branches return the original state. -/
def submitRequestTx (fault : Fault) (now : Nat) (st : DBState) (studentId : String)
    (num_clothes : Int) : DBState × Except ApiError LaundryRequest :=
  match findStudent st studentId with
  | none => (st, Except.error (ApiError.app ⟨"Student not found", 404⟩))
  | some stu =>
    if stu.remaining_quota < num_clothes then
      (st, Except.error (ApiError.app ⟨"Insufficient quota", 400⟩))
    else
      match fault with
      | Fault.onInsert => (st, Except.error (ApiError.app ⟨"insert failed", 500⟩))
      | Fault.onUpdate => (st, Except.error (ApiError.app ⟨"update failed", 500⟩))
      | Fault.ok =>
        ({ students := st.students.map (decQuota studentId num_clothes)
           requests := st.requests ++ [newRequest st now studentId num_clothes]
           nextId := st.nextId + 1 },
         Except.ok (newRequest st now studentId num_clothes))

/-- The fault-free `submitRequest` controller. -/
def submitRequest (now : Nat) (st : DBState) (sid : String) (n : Int) :
    DBState × Except ApiError LaundryRequest :=
  submitRequestTx Fault.ok now st sid n

/-- The student `POST /submit` endpoint: the express-validator chain
`body('num_clothes').isInt(\x7b min: 1 \x7d)` of the student routes
(src/unnamed/part_007) followed by the controller. In this integer
model, the validator's check is exactly `1 <= n`. -/
def submitEndpoint (now : Nat) (st : DBState) (sid : String) (n : Int) :
    DBState × Except ApiError LaundryRequest :=
  if 1 ≤ n then submitRequest now st sid n
  else (st, Except.error (ApiError.validation "Number of clothes must be at least 1"))

/-- One caller-visible operation of the core: a student submission or an
admin status update, each through its route. -/
inductive Op where
  | submit (now : Nat) (sid : String) (n : Int)
  | update (rid : Nat) (s : Status)
deriving DecidableEq

/-- The state after one endpoint call. -/
def applyOp (st : DBState) : Op → DBState
  | Op.submit now sid n => (submitEndpoint now st sid n).1
  | Op.update rid s => (updateStatusEndpoint st rid s).1

/-- The state after a sequence of endpoint calls. -/
def runOps (st : DBState) (ops : List Op) : DBState :=
  ops.foldl applyOp st

/-- Statuses that the spec counts against quota. -/
def countsAgainstQuota (s : Status) : Bool :=
  s == Status.submitted || s == Status.processing || s == Status.completed

/-- Sum of `num_clothes` over a student's requests whose status counts
against quota. -/
def chargedSum (reqs : List LaundryRequest) (sid : String) : Int :=
  match reqs with
  | [] => 0
  | r :: rest =>
    (if r.student_id == sid && countsAgainstQuota r.status then r.num_clothes else 0)
      + chargedSum rest sid

/-- The spec's ledger-consistency invariant, per student. -/
def consistent (st : DBState) : Prop :=
  ∀ s ∈ st.students, s.remaining_quota = s.quota_limit - chargedSum st.requests s.student_id

/-- No request in the state is cancelled. -/
def noCancelled (st : DBState) : Prop :=
  ∀ r ∈ st.requests, r.status ≠ Status.cancelled

instance (st : DBState) : Decidable (consistent st) :=
  inferInstanceAs (Decidable (∀ s ∈ st.students,
    s.remaining_quota = s.quota_limit - chargedSum st.requests s.student_id))

instance (st : DBState) : Decidable (noCancelled st) :=
  inferInstanceAs (Decidable (∀ r ∈ st.requests, r.status ≠ Status.cancelled))

/-! ### Generic helper lemmas -/

theorem find?_map_comm {α : Type} (f : α → α) (p : α → Bool) (l : List α)
    (hf : ∀ a, p (f a) = p a) :
    (l.map f).find? p = (l.find? p).map f := by
  rw [List.find?_map, show p ∘ f = p from funext hf]

theorem decQuota_student_id (sid : String) (n : Int) (s : Student) :
    (decQuota sid n s).student_id = s.student_id := by
  unfold decQuota; split <;> rfl

theorem decQuota_quota_limit (sid : String) (n : Int) (s : Student) :
    (decQuota sid n s).quota_limit = s.quota_limit := by
  unfold decQuota; split <;> rfl

theorem setStatus_id (rid : Nat) (s : Status) (r : LaundryRequest) :
    (setStatus rid s r).id = r.id := by
  unfold setStatus; split <;> rfl

theorem setStatus_student_id (rid : Nat) (s : Status) (r : LaundryRequest) :
    (setStatus rid s r).student_id = r.student_id := by
  unfold setStatus; split <;> rfl

theorem setStatus_num_clothes (rid : Nat) (s : Status) (r : LaundryRequest) :
    (setStatus rid s r).num_clothes = r.num_clothes := by
  unfold setStatus; split <;> rfl

theorem setStatus_submission_date (rid : Nat) (s : Status) (r : LaundryRequest) :
    (setStatus rid s r).submission_date = r.submission_date := by
  unfold setStatus; split <;> rfl

theorem setStatus_completed_date (rid : Nat) (s : Status) (r : LaundryRequest) :
    (setStatus rid s r).completed_date = r.completed_date := by
  unfold setStatus; split <;> rfl

/-- The tuple of every `laundry_requests` column except `status`. -/
def requestFrame (r : LaundryRequest) : Nat × String × Int × Nat × Option Nat :=
  (r.id, r.student_id, r.num_clothes, r.submission_date, r.completed_date)

theorem requestFrame_setStatus (rid : Nat) (s : Status) (r : LaundryRequest) :
    requestFrame (setStatus rid s r) = requestFrame r := by
  unfold requestFrame setStatus; split <;> rfl

/-! ### C8: frame property of the status update -/

/-- C8: every call of `updateRequestStatus` leaves the `students` table
untouched and writes at most the targeted request's `status` column:
all other columns of all requests are unchanged, and every request
whose id is not the target is wholly unchanged, whether the call
succeeds or fails. -/
theorem updateStatus_frame (st : DBState) (rid : Nat) (s : Status) :
    (updateRequestStatus st rid s).1.students = st.students ∧
    (updateRequestStatus st rid s).1.requests.map requestFrame =
      st.requests.map requestFrame ∧
    ∀ r ∈ st.requests, r.id ≠ rid → r ∈ (updateRequestStatus st rid s).1.requests := by
  unfold updateRequestStatus
  cases hfind : findRequest (st.requests.map (setStatus rid s)) rid with
  | none => exact ⟨rfl, rfl, fun r hr _ => hr⟩
  | some r' =>
    refine ⟨rfl, ?_, ?_⟩
    · rw [List.map_map]
      exact congrArg (fun g => List.map g st.requests)
        (funext fun r => requestFrame_setStatus rid s r)
    · intro r hr hne
      have hset : setStatus rid s r = r := by
        unfold setStatus
        rw [if_neg]
        simp only [beq_iff_eq]
        exact hne
      exact hset ▸ List.mem_map_of_mem (setStatus rid s) hr

/-! ### Characterization of the submit controller -/

theorem submitRequestTx_eq (fault : Fault) (now : Nat) (st : DBState) (sid : String)
    (n : Int) (stu : Student) (hfind : findStudent st sid = some stu)
    (hq : ¬ stu.remaining_quota < n) :
    submitRequestTx fault now st sid n =
      match fault with
      | Fault.onInsert => (st, Except.error (ApiError.app ⟨"insert failed", 500⟩))
      | Fault.onUpdate => (st, Except.error (ApiError.app ⟨"update failed", 500⟩))
      | Fault.ok =>
        ({ students := st.students.map (decQuota sid n)
           requests := st.requests ++ [newRequest st now sid n]
           nextId := st.nextId + 1 },
         Except.ok (newRequest st now sid n)) := by
  unfold submitRequestTx
  simp only [hfind, if_neg hq]

theorem submitRequestTx_insufficient (fault : Fault) (now : Nat) (st : DBState)
    (sid : String) (n : Int) (stu : Student) (hfind : findStudent st sid = some stu)
    (hq : stu.remaining_quota < n) :
    submitRequestTx fault now st sid n =
      (st, Except.error (ApiError.app ⟨"Insufficient quota", 400⟩)) := by
  unfold submitRequestTx
  simp only [hfind, if_pos hq]

/-! ### C5: atomicity of submitRequest -/

/-- C5: `submitRequest` is atomic. With no fault, the success path
appends exactly one new request, whose status is `submitted` and whose
submission date is `now`, and applies the quota decrement to the
`students` table, both in the single committed state it returns; when
either transactional write fails (fault on the insert or on the quota
update), the rollback leaves the database exactly as before the call,
so neither write is committed. -/
theorem submitRequest_atomic (now : Nat) (st : DBState) (sid : String) (n : Int)
    (stu : Student) (hfind : findStudent st sid = some stu)
    (hq : ¬ stu.remaining_quota < n) :
    ((submitRequest now st sid n).2 = Except.ok (newRequest st now sid n) ∧
      (submitRequest now st sid n).1.requests = st.requests ++ [newRequest st now sid n] ∧
      (newRequest st now sid n).status = Status.submitted ∧
      (newRequest st now sid n).submission_date = now ∧
      (submitRequest now st sid n).1.students = st.students.map (decQuota sid n)) ∧
    ((submitRequestTx Fault.onInsert now st sid n).1 = st ∧
      (submitRequestTx Fault.onUpdate now st sid n).1 = st) := by
  unfold submitRequest
  rw [submitRequestTx_eq Fault.ok now st sid n stu hfind hq,
    submitRequestTx_eq Fault.onInsert now st sid n stu hfind hq,
    submitRequestTx_eq Fault.onUpdate now st sid n stu hfind hq]
  exact ⟨⟨rfl, rfl, rfl, rfl, rfl⟩, rfl, rfl⟩

/-- Concrete student with quota 25 and the state holding only that
student, used by witnesses. -/
def seedStudent : Student :=
  { student_id := "STU001", name := "Nihal", quota_limit := 30, remaining_quota := 25 }

def seedState : DBState := { students := [seedStudent], requests := [], nextId := 1 }

/-- C5 witness: the atomicity theorem applied at a concrete state with
quota 25 and a request of 20. -/
theorem submitRequest_atomic_witness :
    findStudent seedState "STU001" = some seedStudent ∧
    ¬ seedStudent.remaining_quota < 20 ∧
    (submitRequest 7 seedState "STU001" 20).2 =
      Except.ok (newRequest seedState 7 "STU001" 20) ∧
    (submitRequestTx Fault.onUpdate 7 seedState "STU001" 20).1 = seedState :=
  ⟨by decide, by decide,
    (submitRequest_atomic 7 seedState "STU001" 20 seedStudent (by decide) (by decide)).1.1,
    (submitRequest_atomic 7 seedState "STU001" 20 seedStudent (by decide) (by decide)).2.2⟩

/-! ### C6: insufficient quota -/

/-- C6 (amended): whenever the student's remaining quota is strictly
below the requested amount, `submitRequest` fails with
`AppError('Insufficient quota', 400)` and returns the database
unchanged: the quota keeps its prior value and no request row is
created. The amendment drops the claim's requirement that the
caller-visible message state the requested and the available amounts:
the thrown message is the fixed string `Insufficient quota`. -/
theorem insufficient_quota_rejects (now : Nat) (st : DBState) (sid : String) (n : Int)
    (stu : Student) (hfind : findStudent st sid = some stu)
    (hq : stu.remaining_quota < n) :
    submitRequest now st sid n =
      (st, Except.error (ApiError.app ⟨"Insufficient quota", 400⟩)) :=
  submitRequestTx_insufficient Fault.ok now st sid n stu hfind hq

/-- Concrete student with quota 3, used by the C6 theorems. -/
def lowQuotaStudent : Student :=
  { student_id := "STU002", name := "Kapish", quota_limit := 30, remaining_quota := 3 }

def lowQuotaState : DBState := { students := [lowQuotaStudent], requests := [], nextId := 1 }

/-- C6 witness: quota 3, request of 4. -/
theorem insufficient_quota_rejects_witness :
    findStudent lowQuotaState "STU002" = some lowQuotaStudent ∧
    lowQuotaStudent.remaining_quota < 4 ∧
    submitRequest 7 lowQuotaState "STU002" 4 =
      (lowQuotaState, Except.error (ApiError.app ⟨"Insufficient quota", 400⟩)) :=
  ⟨by decide, by decide,
    insufficient_quota_rejects 7 lowQuotaState "STU002" 4 lowQuotaStudent
      (by decide) (by decide)⟩

/-- C6 counterexample: at remaining quota 3 and requested amount 4 the
endpoint fails with the constant message `Insufficient quota`, which
contains neither the digit of the requested amount (4) nor of the
available amount (3): the caller-visible message does not state those
amounts, contrary to the claim. -/
theorem insufficient_quota_message_cex :
    (submitEndpoint 7 lowQuotaState "STU002" 4).2 =
      Except.error (ApiError.app ⟨"Insufficient quota", 400⟩) ∧
    ('4' ∉ "Insufficient quota".toList ∧ '3' ∉ "Insufficient quota".toList) :=
  ⟨rfl, by decide⟩

/-! ### C10: exact exhaustion boundary -/

/-- C10: when the student's remaining quota equals the requested amount
exactly, the insufficiency check (a strict less-than) passes:
`submitRequest` succeeds, creates the request, and leaves the student's
remaining quota at exactly 0. -/
theorem exact_exhaustion (now : Nat) (st : DBState) (sid : String) (n : Int)
    (stu : Student) (hfind : findStudent st sid = some stu)
    (heq : stu.remaining_quota = n) :
    (submitRequest now st sid n).2 = Except.ok (newRequest st now sid n) ∧
    (submitRequest now st sid n).1.requests = st.requests ++ [newRequest st now sid n] ∧
    findStudent (submitRequest now st sid n).1 sid =
      some { stu with remaining_quota := 0 } := by
  have hq : ¬ stu.remaining_quota < n := by rw [heq]; exact lt_irrefl n
  unfold submitRequest
  rw [submitRequestTx_eq Fault.ok now st sid n stu hfind hq]
  refine ⟨rfl, rfl, ?_⟩
  show findStudent
      { students := st.students.map (decQuota sid n)
        requests := st.requests ++ [newRequest st now sid n]
        nextId := st.nextId + 1 } sid = some { stu with remaining_quota := 0 }
  simp only [findStudent] at hfind ⊢
  have hpred := List.find?_some hfind
  rw [find?_map_comm (decQuota sid n) (fun s => s.student_id == sid) st.students
    (fun s => by simp [decQuota_student_id]), hfind]
  simp [decQuota, hpred, heq, sub_self]

/-- Concrete student with quota 30, used by the C10 witness. -/
def fullQuotaStudent : Student :=
  { student_id := "STU003", name := "Pavan", quota_limit := 30, remaining_quota := 30 }

def fullQuotaState : DBState := { students := [fullQuotaStudent], requests := [], nextId := 1 }

/-- C10 witness: quota 30, request of exactly 30. -/
theorem exact_exhaustion_witness :
    findStudent fullQuotaState "STU003" = some fullQuotaStudent ∧
    fullQuotaStudent.remaining_quota = 30 ∧
    (submitRequest 7 fullQuotaState "STU003" 30).2 =
      Except.ok (newRequest fullQuotaState 7 "STU003" 30) ∧
    findStudent (submitRequest 7 fullQuotaState "STU003" 30).1 "STU003" =
      some { fullQuotaStudent with remaining_quota := 0 } :=
  ⟨by decide, by decide,
    (exact_exhaustion 7 fullQuotaState "STU003" 30 fullQuotaStudent (by decide) rfl).1,
    (exact_exhaustion 7 fullQuotaState "STU003" 30 fullQuotaStudent (by decide) rfl).2.2⟩

/-! ### Characterization of the status-update controller -/

theorem findRequest_map_setStatus (l : List LaundryRequest) (rid : Nat) (s : Status) :
    findRequest (l.map (setStatus rid s)) rid = (findRequest l rid).map (setStatus rid s) := by
  unfold findRequest
  exact find?_map_comm (setStatus rid s) (fun r => r.id == rid) l
    (fun r => by simp [setStatus_id])

theorem updateRequestStatus_state (st : DBState) (rid : Nat) (s : Status) :
    (updateRequestStatus st rid s).1 = st ∨
    (updateRequestStatus st rid s).1 = { st with requests := st.requests.map (setStatus rid s) } := by
  unfold updateRequestStatus
  cases findRequest (st.requests.map (setStatus rid s)) rid
  · exact Or.inl rfl
  · exact Or.inr rfl

theorem completedDate_map_setStatus (l : List LaundryRequest) (rid : Nat) (s : Status) :
    (l.map (setStatus rid s)).map (fun r => r.completed_date) =
      l.map (fun r => r.completed_date) := by
  rw [List.map_map]
  exact congrArg (fun g => List.map g l) (funext fun r => setStatus_completed_date rid s r)

/-! ### C3: no refund on cancellation -/

/-- C3 (amended): cancellation refunds nothing in this code. The admin
update-status route rejects `cancelled` as a target status (its
validator accepts only `processing` and `completed`), leaving the state
unchanged; and even invoking the controller `updateRequestStatus`
directly with `cancelled` writes only the request's status column:
every student's remaining quota and every request's `completed_date`
are unchanged, so the quota is not refunded and no completion date is
set. -/
theorem cancel_no_refund (st : DBState) (rid : Nat) :
    updateStatusEndpoint st rid Status.cancelled =
      (st, Except.error (ApiError.validation "Status must be either processing or completed")) ∧
    (updateRequestStatus st rid Status.cancelled).1.students = st.students ∧
    (updateRequestStatus st rid Status.cancelled).1.requests.map (fun r => r.completed_date) =
      st.requests.map (fun r => r.completed_date) := by
  refine ⟨rfl, ?_⟩
  rcases updateRequestStatus_state st rid Status.cancelled with h | h <;> rw [h]
  · exact ⟨rfl, rfl⟩
  · exact ⟨rfl, completedDate_map_setStatus st.requests rid Status.cancelled⟩

/-- Student at full quota 30, used by the C3 counterexample. -/
def refundStudent : Student :=
  { student_id := "STU004", name := "Aman", quota_limit := 30, remaining_quota := 30 }

/-- State with `refundStudent` and no requests yet. -/
def refundState : DBState :=
  { students := [refundStudent], requests := [], nextId := 1 }

/-- C3 counterexample: submit 10 garments from quota 30 (the quota
becomes 20), then cancel the created request through the controller.
The quota stays at 20 instead of returning to 30, and `completed_date`
remains unset: neither the refund nor the completion timestamp of the
claim happens. -/
theorem refund_on_cancel_cex :
    (findStudent ((updateRequestStatus
        (submitEndpoint 7 refundState "STU004" 10).1 1 Status.cancelled).1) "STU004").map
      (fun s => s.remaining_quota) = some 20 ∧
    (findRequest ((updateRequestStatus
        (submitEndpoint 7 refundState "STU004" 10).1 1 Status.cancelled).1).requests 1).map
      (fun r => (r.status, r.completed_date)) = some (Status.cancelled, none) ∧
    ¬ (findStudent ((updateRequestStatus
        (submitEndpoint 7 refundState "STU004" 10).1 1 Status.cancelled).1) "STU004").map
      (fun s => s.remaining_quota) = some 30 := by
  refine ⟨rfl, rfl, ?_⟩
  decide

/-! ### C4: no transition validation -/

/-- C4 (amended): `updateStatus` performs no state-machine transition
validation. Through the admin route the only checks are that the target
status is `processing` or `completed` (anything else is rejected by the
validator with the state unchanged) and that the targeted request
exists (otherwise `AppError('Request not found', 404)` with the state
unchanged); any existing request is set to the requested status
regardless of its current status — including requests already
`completed` or `cancelled`, which the claim expected to be rejected
with an invalid-transition error. -/
theorem updateStatus_no_transition_check (st : DBState) (rid : Nat) (s : Status)
    (hs : adminStatusAllowed s = true) :
    (∀ r0, findRequest st.requests rid = some r0 →
      (updateStatusEndpoint st rid s).2 = Except.ok (setStatus rid s r0) ∧
      findRequest (updateStatusEndpoint st rid s).1.requests rid =
        some (setStatus rid s r0)) ∧
    (findRequest st.requests rid = none →
      updateStatusEndpoint st rid s =
        (st, Except.error (ApiError.app ⟨"Request not found", 404⟩))) := by
  constructor
  · intro r0 h0
    have key : updateStatusEndpoint st rid s =
        ({ st with requests := st.requests.map (setStatus rid s) },
          Except.ok (setStatus rid s r0)) := by
      unfold updateStatusEndpoint
      rw [if_pos hs]
      unfold updateRequestStatus
      rw [findRequest_map_setStatus, h0]
      rfl
    rw [key]
    refine ⟨rfl, ?_⟩
    show findRequest (st.requests.map (setStatus rid s)) rid = some (setStatus rid s r0)
    rw [findRequest_map_setStatus, h0]
    rfl
  · intro h0
    unfold updateStatusEndpoint
    rw [if_pos hs]
    unfold updateRequestStatus
    rw [findRequest_map_setStatus, h0]
    rfl

/-- A request already in the terminal status `completed`. -/
def doneReq : LaundryRequest :=
  { id := 1, student_id := "STU005", num_clothes := 5,
    status := Status.completed, submission_date := 3, completed_date := none }

/-- Owner of `doneReq`. -/
def doneStudent : Student :=
  { student_id := "STU005", name := "Ravi", quota_limit := 30, remaining_quota := 25 }

/-- State holding `doneReq`, used by the C4 theorems. -/
def doneState : DBState :=
  { students := [doneStudent], requests := [doneReq], nextId := 2 }

/-- C4 witness: the no-transition-check theorem applied to a request
that is already `completed`, moved back to `processing`. -/
theorem updateStatus_no_transition_check_witness :
    adminStatusAllowed Status.processing = true ∧
    findRequest doneState.requests 1 = some doneReq ∧
    (updateStatusEndpoint doneState 1 Status.processing).2 =
      Except.ok (setStatus 1 Status.processing doneReq) :=
  ⟨by decide, by decide,
    ((updateStatus_no_transition_check doneState 1 Status.processing (by decide)).1 doneReq
      (by decide)).1⟩

/-- C4 counterexample: request 1 of `doneState` is already `completed`,
yet the update-status endpoint setting it back to `processing` succeeds
and changes the stored status — it neither fails nor leaves the state
unchanged, contrary to the claim's terminal-state protection. -/
theorem terminal_state_not_protected_cex :
    doneReq.status = Status.completed ∧
    (updateStatusEndpoint doneState 1 Status.processing).2 =
      Except.ok (setStatus 1 Status.processing doneReq) ∧
    (findRequest (updateStatusEndpoint doneState 1 Status.processing).1.requests 1).map
      (fun r => r.status) = some Status.processing :=
  ⟨rfl, rfl, rfl⟩

/-! ### C7: numClothes validation -/

theorem submitRequest_error_is_app (now : Nat) (st : DBState) (sid : String) (n : Int)
    (m : String) :
    (submitRequest now st sid n).2 ≠ Except.error (ApiError.validation m) := by
  unfold submitRequest submitRequestTx
  cases findStudent st sid with
  | none => simp
  | some stu =>
    by_cases hq : stu.remaining_quota < n
    · simp [hq]
    · simp [hq]

/-- C7 (amended): the student submit route validates only
`isInt(min 1)`: the endpoint fails with a validation error if and only
if the requested integer is below 1. There is no upper bound of 50
anywhere on this path — a request above 50 garments passes validation
and proceeds to the quota check. -/
theorem numClothes_validation_min_only (now : Nat) (st : DBState) (sid : String) (n : Int) :
    (∃ m, (submitEndpoint now st sid n).2 = Except.error (ApiError.validation m)) ↔ n < 1 := by
  unfold submitEndpoint
  by_cases h : 1 ≤ n
  · rw [if_pos h]
    constructor
    · rintro ⟨m, hm⟩
      exact absurd hm (submitRequest_error_is_app now st sid n m)
    · intro hn
      omega
  · rw [if_neg h]
    constructor
    · intro _
      omega
    · intro _
      exact ⟨"Number of clothes must be at least 1", rfl⟩

/-- Student with quota 60, used by the C7 counterexample. -/
def bigQuotaStudent : Student :=
  { student_id := "STU006", name := "Dev", quota_limit := 60, remaining_quota := 60 }

def bigQuotaState : DBState :=
  { students := [bigQuotaStudent], requests := [], nextId := 1 }

/-- C7 counterexample: a request of 51 garments (strictly more than 50)
passes the route validation — there is no upper bound — and, with
enough quota, succeeds and creates a request, contrary to the claim
that every call with numClothes above 50 is rejected with a validation
error and creates no request. -/
theorem numClothes_upper_bound_cex :
    (submitEndpoint 7 bigQuotaState "STU006" 51).2 =
      Except.ok (newRequest bigQuotaState 7 "STU006" 51) ∧
    (submitEndpoint 7 bigQuotaState "STU006" 51).1.requests.length = 1 ∧
    (51 : Int) > 50 :=
  ⟨rfl, rfl, by decide⟩

/-! ### Preservation machinery for the endpoint-level operations -/

theorem countsAgainstQuota_of_ne_cancelled (s : Status) (h : s ≠ Status.cancelled) :
    countsAgainstQuota s = true := by
  cases s
  · rfl
  · rfl
  · rfl
  · exact absurd rfl h

theorem adminStatusAllowed_ne_cancelled (s : Status) (h : adminStatusAllowed s = true) :
    s ≠ Status.cancelled := by
  cases s <;> simp_all [adminStatusAllowed]

theorem chargedSum_append (l₁ l₂ : List LaundryRequest) (sid : String) :
    chargedSum (l₁ ++ l₂) sid = chargedSum l₁ sid + chargedSum l₂ sid := by
  induction l₁ with
  | nil => simp [chargedSum]
  | cons r t ih => simp [chargedSum, ih, add_assoc]

theorem chargedSum_singleton (r : LaundryRequest) (sid : String) :
    chargedSum [r] sid =
      if r.student_id == sid && countsAgainstQuota r.status then r.num_clothes else 0 := by
  simp [chargedSum]

theorem chargedSum_map_congr (l : List LaundryRequest) (f : LaundryRequest → LaundryRequest)
    (sid : String)
    (h : ∀ r ∈ l, (f r).student_id = r.student_id ∧ (f r).num_clothes = r.num_clothes ∧
      countsAgainstQuota (f r).status = countsAgainstQuota r.status) :
    chargedSum (l.map f) sid = chargedSum l sid := by
  induction l with
  | nil => rfl
  | cons r t ih =>
    obtain ⟨h1, h2, h3⟩ := h r (List.mem_cons_self r t)
    have ht := ih (fun a ha => h a (List.mem_cons_of_mem r ha))
    simp only [List.map_cons, chargedSum, h1, h2, h3, ht]

theorem submitEndpoint_state_cases (now : Nat) (st : DBState) (sid : String) (n : Int) :
    (submitEndpoint now st sid n).1 = st ∨
    ∃ stu, findStudent st sid = some stu ∧ ¬ stu.remaining_quota < n ∧
      (submitEndpoint now st sid n).1 =
        { students := st.students.map (decQuota sid n)
          requests := st.requests ++ [newRequest st now sid n]
          nextId := st.nextId + 1 } := by
  unfold submitEndpoint
  by_cases hv : 1 ≤ n
  · rw [if_pos hv]
    unfold submitRequest
    cases hfs : findStudent st sid with
    | none =>
      left
      unfold submitRequestTx
      rw [hfs]
    | some stu =>
      by_cases hq : stu.remaining_quota < n
      · left
        rw [submitRequestTx_insufficient Fault.ok now st sid n stu hfs hq]
      · right
        refine ⟨stu, rfl, hq, ?_⟩
        rw [submitRequestTx_eq Fault.ok now st sid n stu hfs hq]
  · left
    rw [if_neg hv]

theorem updateStatusEndpoint_state_cases (st : DBState) (rid : Nat) (s : Status) :
    (updateStatusEndpoint st rid s).1 = st ∨
    (adminStatusAllowed s = true ∧
      (updateStatusEndpoint st rid s).1 =
        { st with requests := st.requests.map (setStatus rid s) }) := by
  unfold updateStatusEndpoint
  by_cases hs : adminStatusAllowed s = true
  · rw [if_pos hs]
    rcases updateRequestStatus_state st rid s with h | h
    · exact Or.inl h
    · exact Or.inr ⟨hs, h⟩
  · rw [if_neg hs]
    exact Or.inl rfl

theorem applyOp_noCancelled (st : DBState) (op : Op) (h : noCancelled st) :
    noCancelled (applyOp st op) := by
  cases op with
  | submit now sid n =>
    show noCancelled (submitEndpoint now st sid n).1
    rcases submitEndpoint_state_cases now st sid n with hc | ⟨stu, _, _, hc⟩ <;> rw [hc]
    · exact h
    · intro r hr
      rcases List.mem_append.mp hr with h1 | h2
      · exact h r h1
      · rw [List.mem_singleton.mp h2]
        simp [newRequest]
  | update rid s =>
    show noCancelled (updateStatusEndpoint st rid s).1
    rcases updateStatusEndpoint_state_cases st rid s with hc | ⟨hs, hc⟩ <;> rw [hc]
    · exact h
    · intro r hr
      rcases List.mem_map.mp hr with ⟨r0, hr0, rfl⟩
      unfold setStatus
      split
      · exact adminStatusAllowed_ne_cancelled s hs
      · exact h r0 hr0

theorem applyOp_consistent (st : DBState) (op : Op) (hc : consistent st)
    (hnc : noCancelled st) : consistent (applyOp st op) := by
  cases op with
  | submit now sid n =>
    show consistent (submitEndpoint now st sid n).1
    rcases submitEndpoint_state_cases now st sid n with h | ⟨stu, hfs, hq, h⟩ <;> rw [h]
    · exact hc
    · intro s' hs'
      rcases List.mem_map.mp hs' with ⟨s0, hs0, rfl⟩
      have hbase := hc s0 hs0
      show (decQuota sid n s0).remaining_quota = (decQuota sid n s0).quota_limit -
        chargedSum (st.requests ++ [newRequest st now sid n]) (decQuota sid n s0).student_id
      rw [decQuota_quota_limit, decQuota_student_id, chargedSum_append, chargedSum_singleton]
      by_cases hm : s0.student_id = sid
      · have hbq : (s0.student_id == sid) = true := by simp [hm]
        have hbq2 : ((newRequest st now sid n).student_id == s0.student_id) = true := by
          simp [newRequest, hm]
        simp [decQuota, hbq, hbq2, newRequest, countsAgainstQuota]
        rw [if_pos hm.symm]
        omega
      · have hbq : (s0.student_id == sid) = false := by
          rw [beq_eq_false_iff_ne]
          exact hm
        have hbq2 : ((newRequest st now sid n).student_id == s0.student_id) = false := by
          rw [beq_eq_false_iff_ne]
          exact fun e => hm e.symm
        simp [decQuota, hbq, hbq2]
        omega
  | update rid s =>
    show consistent (updateStatusEndpoint st rid s).1
    rcases updateStatusEndpoint_state_cases st rid s with h | ⟨hs, h⟩ <;> rw [h]
    · exact hc
    · intro s' hs'
      have hsum : chargedSum (st.requests.map (setStatus rid s)) s'.student_id =
          chargedSum st.requests s'.student_id := by
        apply chargedSum_map_congr
        intro r hr
        refine ⟨setStatus_student_id rid s r, setStatus_num_clothes rid s r, ?_⟩
        unfold setStatus
        split
        · show countsAgainstQuota s = countsAgainstQuota r.status
          rw [countsAgainstQuota_of_ne_cancelled s (adminStatusAllowed_ne_cancelled s hs),
            countsAgainstQuota_of_ne_cancelled r.status (hnc r hr)]
        · rfl
      show s'.remaining_quota = s'.quota_limit -
        chargedSum (st.requests.map (setStatus rid s)) s'.student_id
      rw [hsum]
      exact hc s' hs'

theorem runOps_noCancelled (st : DBState) (ops : List Op) (hnc : noCancelled st) :
    noCancelled (runOps st ops) := by
  induction ops generalizing st with
  | nil => exact hnc
  | cons op rest ih => exact ih (applyOp st op) (applyOp_noCancelled st op hnc)

theorem runOps_invariant (st : DBState) (ops : List Op) (hc : consistent st)
    (hnc : noCancelled st) :
    consistent (runOps st ops) ∧ noCancelled (runOps st ops) := by
  induction ops generalizing st with
  | nil => exact ⟨hc, hnc⟩
  | cons op rest ih =>
    exact ih (applyOp st op) (applyOp_consistent st op hc hnc) (applyOp_noCancelled st op hnc)

/-! ### C9: cancelled is unreachable through the endpoints -/

/-- C9: the admin update-status route accepts only `processing` and
`completed` as target statuses, and submission creates requests only
with the schema default status `submitted`; consequently, starting from
a state with no cancelled request, no sequence of submit and
update-status endpoint calls ever produces a request whose status is
`cancelled`. -/
theorem never_cancelled_reachable (st : DBState) (ops : List Op) (h : noCancelled st) :
    noCancelled (runOps st ops) ∧
    adminStatusAllowed Status.cancelled = false ∧
    ∀ now sid n, (newRequest st now sid n).status = Status.submitted :=
  ⟨runOps_noCancelled st ops h, rfl, fun _ _ _ => rfl⟩

/-- C9 witness: a submission followed by two admin updates never yields
a cancelled request. -/
theorem never_cancelled_reachable_witness :
    noCancelled seedState ∧
    noCancelled (runOps seedState
      [Op.submit 7 "STU001" 5, Op.update 1 Status.processing, Op.update 1 Status.completed]) :=
  ⟨by decide,
    (never_cancelled_reachable seedState
      [Op.submit 7 "STU001" 5, Op.update 1 Status.processing, Op.update 1 Status.completed]
      (by decide)).1⟩

/-! ### C1: ledger consistency -/

/-- C1 (amended): starting from a consistent state in which no request
is cancelled, after every sequence of submit and update-status endpoint
calls, every student's remaining quota equals their quota limit minus
the sum of `num_clothes` over that student's requests whose status is
submitted, processing or completed. The amendment adds the
no-cancelled-request hypothesis on the start state: the claim as stated
fails on a consistent start state that contains a cancelled request,
because the update endpoint can move such a request into a charged
status without any quota adjustment (see the counterexample). -/
theorem ledger_consistency_preserved (st : DBState) (ops : List Op)
    (hc : consistent st) (hnc : noCancelled st) :
    consistent (runOps st ops) :=
  (runOps_invariant st ops hc hnc).1

/-- C1 witness: a submission of 10 followed by an admin update keeps
the ledger consistent. -/
theorem ledger_consistency_preserved_witness :
    consistent refundState ∧ noCancelled refundState ∧
    consistent (runOps refundState [Op.submit 7 "STU004" 10, Op.update 1 Status.processing]) :=
  ⟨by decide, by decide,
    ledger_consistency_preserved refundState
      [Op.submit 7 "STU004" 10, Op.update 1 Status.processing] (by decide) (by decide)⟩

/-- A request already cancelled in the start state, owner at full
quota: the state is consistent because cancelled requests are excluded
from the charged sum. -/
def cancelledReq : LaundryRequest :=
  { id := 1, student_id := "STU007", num_clothes := 10,
    status := Status.cancelled, submission_date := 2, completed_date := none }

def cancelledStudent : Student :=
  { student_id := "STU007", name := "Ishan", quota_limit := 30, remaining_quota := 30 }

def cancelledState : DBState :=
  { students := [cancelledStudent], requests := [cancelledReq], nextId := 2 }

/-- C1 counterexample: `cancelledState` is consistent, yet one
update-status endpoint call (target `processing`, accepted by the
route) moves the cancelled request into the charged set without
touching any quota, and the ledger invariant no longer holds. -/
theorem ledger_consistency_cex :
    consistent cancelledState ∧
    ¬ consistent (runOps cancelledState [Op.update 1 Status.processing]) := by
  constructor
  · decide
  · decide

/-! ### C2: the submit race -/

/-- Program counter of one in-flight `submitRequest` call. The code
runs the quota check as a plain `pool.query` outside any transaction,
then the transaction (insert and unconditional decrement) which commits
atomically; so a call is either before the check, past the check, or
done. -/
inductive Phase where
  | ready
  | checked
  | done (succeeded : Bool)
deriving DecidableEq

/-- One step of an in-flight `submitRequest now sid n` call against the
shared database: from `ready`, run the out-of-transaction quota check;
from `checked`, run the whole transaction — the insert and the
unconditional `remaining_quota = remaining_quota - $1` update — and
commit. -/
def stepSubmit (now : Nat) (sid : String) (n : Int) :
    DBState × Phase → DBState × Phase
  | (db, Phase.ready) =>
    match findStudent db sid with
    | none => (db, Phase.done false)
    | some stu =>
      if stu.remaining_quota < n then (db, Phase.done false) else (db, Phase.checked)
  | (db, Phase.checked) =>
    ({ students := db.students.map (decQuota sid n)
       requests := db.requests ++ [newRequest db now sid n]
       nextId := db.nextId + 1 },
     Phase.done true)
  | (db, Phase.done b) => (db, Phase.done b)

/-- Two concurrent submit calls, A and B, over the shared database. -/
structure RaceState where
  db : DBState
  a : Phase
  b : Phase
deriving DecidableEq

/-- Scheduler step: `true` steps call A, `false` steps call B. -/
def raceStep (now : Nat) (sid : String) (n : Int) (rs : RaceState) (pickA : Bool) :
    RaceState :=
  if pickA then
    { rs with
        db := (stepSubmit now sid n (rs.db, rs.a)).1
        a := (stepSubmit now sid n (rs.db, rs.a)).2 }
  else
    { rs with
        db := (stepSubmit now sid n (rs.db, rs.b)).1
        b := (stepSubmit now sid n (rs.db, rs.b)).2 }

/-- Run both calls under a schedule. -/
def runRace (now : Nat) (sid : String) (n : Int) (rs : RaceState) (sched : List Bool) :
    RaceState :=
  sched.foldl (raceStep now sid n) rs

/-- C2: the code violates the claimed race guarantee. The quota check
runs outside the transaction and the decrement inside it is
unconditional, so under the interleaving check-A, check-B, commit-A,
commit-B of two concurrent submitRequest(S, 20) calls against remaining
quota 25, both calls pass the check and both commit: both succeed and
the final remaining quota is -15 — negative — where the claim requires
exactly one success, one InsufficientQuotaError, and a final quota
of 5. -/
theorem submit_race_negative_quota :
    (runRace 7 "STU001" 20 { db := seedState, a := Phase.ready, b := Phase.ready }
      [true, false, true, false]).a = Phase.done true ∧
    (runRace 7 "STU001" 20 { db := seedState, a := Phase.ready, b := Phase.ready }
      [true, false, true, false]).b = Phase.done true ∧
    (findStudent (runRace 7 "STU001" 20 { db := seedState, a := Phase.ready, b := Phase.ready }
      [true, false, true, false]).db "STU001").map (fun s => s.remaining_quota) =
      some (-15) :=
  ⟨rfl, rfl, rfl⟩

end AlphaLaundry
